import Mathlib

/-!
Verification of the block-overview-graph rendering and interaction engine
(`src/frontend/src/app/components/block-overview-graph/block-overview-graph.component.ts`).

The component's pure math (the vertex-shader interpolation) is embedded over `ℚ`;
the component's mutable fields become a `CompState` record, and each event handler
or host-facing method becomes a state-transition function together with the list of
events the handler emits.  External collaborators that live outside the analysed
sources (`block-scene.ts`, `utils.ts`) are modelled from the specification at the
interface granularity the component uses, and are marked as such in doc comments.
-/

namespace Mempool

/-! ## Vertex Attribute Protocol (vertex shader math, `vertShaderSrc`)

The GLSL source embedded in the component:
```
float smootherstep(float x) {
  x = clamp(x, 0.0, 1.0);
  float ix = 1.0 - x;
  x = x * x;
  return x / (x + ix * ix);
}
float interpolateAttribute(vec4 attr) {
  float d = (now - attr.z) * attr.w;
  float delta = smootherstep(d);
  return mix(attr.x, attr.y, delta);
}
```
We embed the shader arithmetic over `ℚ` (exact rational arithmetic standing in
for GLSL float math). -/

/-- GLSL `clamp(x, lo, hi) = min(max(x, lo), hi)`. -/
def clampQ (x lo hi : ℚ) : ℚ := min (max x lo) hi

/-- The shader's `smootherstep`, exactly as written: clamp the argument to
`[0,1]`, then return `x*x / (x*x + (1-x)*(1-x))`. -/
def smootherstep (x : ℚ) : ℚ :=
  clampQ x 0 1 * clampQ x 0 1 /
    (clampQ x 0 1 * clampQ x 0 1 + (1 - clampQ x 0 1) * (1 - clampQ x 0 1))

/-- The ease curve as the specification writes it: `t^2 / (t^2 + (1-t)^2)`,
with no clamping of its own (the spec applies it to an already-clamped value). -/
def smootherstepSpec (t : ℚ) : ℚ := t ^ 2 / (t ^ 2 + (1 - t) ^ 2)

/-- GLSL `mix(x, y, a) = x*(1-a) + y*a`. -/
def mixQ (x y a : ℚ) : ℚ := x * (1 - a) + y * a

/-- An animated attribute tuple `[x: startValue, y: endValue, z: startTime, w: rate]`. -/
structure AnimatedAttr where
  x : ℚ
  y : ℚ
  z : ℚ
  w : ℚ

/-- The shader's `interpolateAttribute`: `mix(attr.x, attr.y, smootherstep((now - attr.z) * attr.w))`. -/
def interpolateAttribute (now : ℚ) (a : AnimatedAttr) : ℚ :=
  mixQ a.x a.y (smootherstep ((now - a.z) * a.w))

lemma denom_pos (t : ℚ) : 0 < t ^ 2 + (1 - t) ^ 2 := by
  nlinarith [sq_nonneg (2 * t - 1)]

lemma smootherstepSpec_nonneg (t : ℚ) : 0 ≤ smootherstepSpec t :=
  div_nonneg (sq_nonneg t) (le_of_lt (denom_pos t))

lemma smootherstepSpec_le_one (t : ℚ) : smootherstepSpec t ≤ 1 := by
  rw [smootherstepSpec, div_le_one (denom_pos t)]
  nlinarith [sq_nonneg (1 - t)]

lemma smootherstepSpec_mono {t₁ t₂ : ℚ} (h0 : 0 ≤ t₁) (h12 : t₁ ≤ t₂) (h1 : t₂ ≤ 1) :
    smootherstepSpec t₁ ≤ smootherstepSpec t₂ := by
  rw [smootherstepSpec, smootherstepSpec, div_le_div_iff₀ (denom_pos t₁) (denom_pos t₂)]
  have hA : 0 ≤ t₁ * (1 - t₂) := mul_nonneg h0 (by linarith)
  have hB : t₁ * (1 - t₂) ≤ t₂ * (1 - t₁) := by nlinarith
  nlinarith [mul_self_le_mul_self hA hB]

lemma clampQ01_nonneg (x : ℚ) : 0 ≤ clampQ x 0 1 :=
  le_min (le_max_right x 0) zero_le_one

lemma clampQ01_le_one (x : ℚ) : clampQ x 0 1 ≤ 1 := min_le_right _ _

lemma clampQ01_mono {x₁ x₂ : ℚ} (h : x₁ ≤ x₂) : clampQ x₁ 0 1 ≤ clampQ x₂ 0 1 :=
  min_le_min (max_le_max h le_rfl) le_rfl

/-- The shader's internally-clamping `smootherstep` agrees with the spec's raw
ease curve applied to the clamped argument. -/
lemma smootherstep_eq_spec (x : ℚ) : smootherstep x = smootherstepSpec (clampQ x 0 1) := by
  rw [smootherstep, smootherstepSpec]
  ring_nf

lemma smootherstep_nonneg (x : ℚ) : 0 ≤ smootherstep x := by
  rw [smootherstep_eq_spec]; exact smootherstepSpec_nonneg _

lemma smootherstep_le_one (x : ℚ) : smootherstep x ≤ 1 := by
  rw [smootherstep_eq_spec]; exact smootherstepSpec_le_one _

lemma smootherstep_mono {x₁ x₂ : ℚ} (h : x₁ ≤ x₂) : smootherstep x₁ ≤ smootherstep x₂ := by
  rw [smootherstep_eq_spec, smootherstep_eq_spec]
  exact smootherstepSpec_mono (clampQ01_nonneg x₁) (clampQ01_mono h) (clampQ01_le_one x₂)

lemma mixQ_bounds {a : ℚ} (h0 : 0 ≤ a) (h1 : a ≤ 1) (x y : ℚ) :
    min x y ≤ mixQ x y a ∧ mixQ x y a ≤ max x y := by
  rcases le_total x y with h | h
  · rw [min_eq_left h, max_eq_right h, mixQ]
    constructor <;> nlinarith [mul_nonneg h0 (sub_nonneg.mpr h)]
  · rw [min_eq_right h, max_eq_left h, mixQ]
    constructor <;> nlinarith [mul_nonneg h0 (sub_nonneg.mpr h)]

lemma mixQ_mono {a₁ a₂ : ℚ} (h : a₁ ≤ a₂) (x y : ℚ) :
    (x ≤ y → mixQ x y a₁ ≤ mixQ x y a₂) ∧ (y ≤ x → mixQ x y a₂ ≤ mixQ x y a₁) := by
  constructor <;> intro hxy <;> rw [mixQ, mixQ] <;>
    nlinarith [mul_nonneg (sub_nonneg.mpr h) (sub_nonneg.mpr hxy)]

/-- C1: for every animated attribute tuple `(x, y, z, w)` and every render
timestamp `now`, the rendered value equals
`mix(x, y, smootherstep(clamp((now - z) * w, 0, 1)))` with
`smootherstep(t) = t² / (t² + (1-t)²)`; evaluating at `now = z` yields `x`;
for rate `w > 0` the rendered value moves monotonically from `x` toward `y`
as `now` increases; and the rendered value never leaves the closed interval
between `x` and `y` (no overshoot). -/
theorem C1_interpolation (a : AnimatedAttr) (now now₁ now₂ : ℚ) :
    interpolateAttribute now a =
        mixQ a.x a.y (smootherstepSpec (clampQ ((now - a.z) * a.w) 0 1)) ∧
    interpolateAttribute a.z a = a.x ∧
    (0 < a.w → now₁ ≤ now₂ →
      (a.x ≤ a.y → interpolateAttribute now₁ a ≤ interpolateAttribute now₂ a) ∧
      (a.y ≤ a.x → interpolateAttribute now₂ a ≤ interpolateAttribute now₁ a)) ∧
    min a.x a.y ≤ interpolateAttribute now a ∧
    interpolateAttribute now a ≤ max a.x a.y := by
  refine ⟨?_, ?_, ?_, ?_, ?_⟩
  · rw [interpolateAttribute, smootherstep_eq_spec]
  · rw [interpolateAttribute]
    simp [smootherstep, clampQ, mixQ]
  · intro hw h12
    have hd : (now₁ - a.z) * a.w ≤ (now₂ - a.z) * a.w := by nlinarith
    exact mixQ_mono (smootherstep_mono hd) a.x a.y
  · exact (mixQ_bounds (smootherstep_nonneg _) (smootherstep_le_one _) a.x a.y).1
  · exact (mixQ_bounds (smootherstep_nonneg _) (smootherstep_le_one _) a.x a.y).2

/-- Witness for C1 at the concrete attribute `(0, 10, 100, 1)`:
at `now = startTime = 100` the rendered value is the start value `0`, and
between `now = 101` and `now = 102` it does not move backwards. -/
theorem C1_interpolation_witness :
    interpolateAttribute 100 ⟨0, 10, 100, 1⟩ = 0 ∧
    interpolateAttribute 101 ⟨0, 10, 100, 1⟩ ≤ interpolateAttribute 102 ⟨0, 10, 100, 1⟩ := by
  have h := C1_interpolation ⟨0, 10, 100, 1⟩ 100 101 102
  exact ⟨h.2.1, (h.2.2.1 (by norm_num) (by norm_num)).1 (by norm_num)⟩

/-! ## Data model

`TxView` (from `tx-view.ts`, external): the component only reads `txid` and
`bigintFlags` and uses the view as an identity-carrying handle.  Transaction
views held by a scene are one object per txid, so structural equality below
models the JavaScript reference equality the component uses.
`bigint` flag masks are non-negative, so they are embedded as `ℕ` with bitwise
`&&&` for bigint `&`. -/

structure TxView where
  txid : String
  bigintFlags : ℕ
deriving DecidableEq, Repr

/-- The `TransactionStripped` record (websocket interface): the fields `setup` reads. -/
structure TransactionStripped where
  txid : String
  flags : ℕ
deriving DecidableEq, Repr

/-- The filter combination mode `FilterMode = 'and' | 'or'` (from `filters.utils`). -/
inductive FilterMode where
  | and
  | or
deriving DecidableEq, Repr

/-- Which color function a call site produced / installed on the scene:
the filter-derived closure `getFilterColorFunction(flags)` or the externally
supplied `overrideColors` function.  `Option ColorFnVal` stands for the
nullable function value (`none` = JavaScript `null`). -/
inductive ColorFnVal where
  | filtered (flags : ℕ)
  | external
deriving DecidableEq, Repr

/-- Outward notifications emitted by the component
(`txHoverEvent`, `txClickEvent`, `readyEvent`). -/
inductive Event where
  | txHover (txid : Option String)
  | txClick (tx : TxView) (keyModifier : Bool)
  | ready
deriving DecidableEq, Repr

/-- Modelled from the spec: the `BlockScene` collaborator (`block-scene.ts` is
not among the analysed sources).  The component consumes only: the id-indexed
transaction index `txs`, the point-containment query `getTxAt`, the animation
horizon `animateUntil`, the per-transaction hover/highlight marks toggled by
`setHover`/`setHighlight`, and the installed color function
(`setColorFunction`).  Hover and highlight marks are kept as txid lists. -/
structure Scene where
  txs : List TxView
  hover : List String
  highlight : List String
  animateUntil : ℚ
  colorFunction : Option ColorFnVal
  getTxAt : ℚ × ℚ → Option TxView

/-- Lookup in the scene's id-indexed transaction index (`this.scene.txs[txid]`). -/
def lookupTx (txs : List TxView) (txid : String) : Option TxView :=
  txs.find? (fun t => t.txid = txid)

/-- Modelled from the spec: `scene.setHover(tx, bool)` sets or clears the
hover mark on one transaction. -/
def Scene.setHover (sc : Scene) (tx : TxView) (b : Bool) : Scene :=
  { sc with hover :=
      if b then tx.txid :: sc.hover.filter (fun h => h ≠ tx.txid)
      else sc.hover.filter (fun h => h ≠ tx.txid) }

/-- Modelled from the spec: `scene.setHighlight(tx, bool)` sets or clears the
search-highlight mark on one transaction. -/
def Scene.setHighlight (sc : Scene) (tx : TxView) (b : Bool) : Scene :=
  { sc with highlight :=
      if b then tx.txid :: sc.highlight.filter (fun h => h ≠ tx.txid)
      else sc.highlight.filter (fun h => h ≠ tx.txid) }

/-- Modelled from the spec: `scene.setColorFunction(fn)` stores the supplied
(nullable) color function. -/
def Scene.setColorFunction (sc : Scene) (fn : Option ColorFnVal) : Scene :=
  { sc with colorFunction := fn }

/-- Modelled from the spec: `scene.setup(transactions)` replaces the scene's
transaction topology with the given list (the layout/animation scheduling the
scene performs is outside the component).  `bigintFlags` mirrors the numeric
`flags` of each transaction. -/
def Scene.setup (sc : Scene) (txs : List TransactionStripped) : Scene :=
  { sc with txs := txs.map (fun t => { txid := t.txid, bigintFlags := t.flags }) }

/-- The component's mutable fields used by the analysed behaviour.
`canvas`/`gl` model the presence of the canvas element and of a live WebGL
context; `dirty` models `vertexArray.dirty`; `nextTimerId` is a fresh-handle
source modelling `requestAnimationFrame` / `setTimeout` handle allocation. -/
structure CompState where
  canvas : Bool
  gl : Bool
  scene : Option Scene
  running : Bool
  dirty : Bool
  animationFrameRequest : Option ℕ
  animationHeartBeat : Option ℕ
  nextTimerId : ℕ
  hoverTx : Option TxView
  selectedTx : Option TxView
  highlightTx : Option TxView
  mirrorTx : Option TxView
  tooltipPosition : ℚ × ℚ
  readyNextFrame : Bool
  searchText : String
  filtersAvailable : Bool
  activeFilterFlags : Option ℕ
  filterFlags : Option ℕ
  filterMode : FilterMode
  overrideColors : Bool

/-- A component state mirroring the field initializers of the class
(scene not yet constructed, `filtersAvailable = true`, no filters, no
override color function, nothing hovered or selected). -/
def baseState : CompState where
  canvas := true
  gl := true
  scene := none
  running := false
  dirty := false
  animationFrameRequest := none
  animationHeartBeat := none
  nextTimerId := 0
  hoverTx := none
  selectedTx := none
  highlightTx := none
  mirrorTx := none
  tooltipPosition := (0, 0)
  readyNextFrame := false
  searchText := ""
  filtersAvailable := true
  activeFilterFlags := none
  filterFlags := none
  filterMode := FilterMode.and
  overrideColors := false

/-- JavaScript `a || b` on nullable transaction views. -/
def jsOr (a b : Option TxView) : Option TxView :=
  match a with
  | some x => some x
  | none => b

/-- JavaScript truthiness of a nullable `bigint` (`null`/`undefined` and `0n`
are falsy). -/
def bigintTruthy : Option ℕ → Bool
  | none => false
  | some n => n ≠ 0

/-- JavaScript truthiness of a nullable string (`null`/`undefined` and `''`
are falsy). -/
def strTruthy : Option String → Bool
  | none => false
  | some t => t ≠ ""

/-! ## Frame scheduler (`start`, `doRun`, `run`, heartbeat) -/

/-- Method `doRun()`: cancel any outstanding animation-frame request and request a
fresh one (`requestAnimationFrame(() => this.run())`); the fresh handle is
drawn from `nextTimerId`. -/
def doRun (s : CompState) : CompState :=
  { s with animationFrameRequest := some s.nextTimerId, nextTimerId := s.nextTimerId + 1 }

/-- Method `start()`: set `running = true` and schedule a tick (outside Angular's
zone, which has no observable effect in this model). -/
def start (s : CompState) : CompState :=
  doRun { s with running := true }

/-- The delay, in milliseconds, of the idle heartbeat timer
(`window.setTimeout(() => this.start(), 1000)`). -/
def heartbeatDelayMs : ℕ := 1000

/-- The body of the heartbeat timer callback: `() => this.start()`. -/
def heartbeatFire (s : CompState) : CompState := start s

/-- The draw section of `run(now)` (`if (this.scene && this.gl) { ... }`):
upload the buffer when dirty (clearing the dirty flag) and emit the one-shot
ready event when armed. -/
def runDraw (s : CompState) : CompState × List Event :=
  if s.scene.isSome ∧ s.gl = true then
    if s.readyNextFrame then ({ s with dirty := false, readyNextFrame := false }, [Event.ready])
    else ({ s with dirty := false }, [])
  else (s, [])

/-- Method `run(now)`: draw if a scene and a GL context exist, then either schedule
the next animation-frame tick (when `running && scene && now <=
scene.animateUntil + 500`) or fall back to a single idle heartbeat timer,
replacing any pending one. -/
def run (s : CompState) (now : ℚ) : CompState × List Event :=
  let drawn := runDraw s
  let s1 := drawn.1
  if s1.running = true ∧
      (match s1.scene with
       | some sc => decide (now ≤ sc.animateUntil + 500)
       | none => false) = true then
    (doRun s1, drawn.2)
  else
    ({ s1 with animationHeartBeat := some s1.nextTimerId, nextTimerId := s1.nextTimerId + 1 },
     drawn.2)

/-! ## Filter color function -/

/-- Which palette family `getFilterColorFunction`'s closure hands to
`defaultColorFunction` (from `utils.ts`, external): the default (matched)
palette, or the precomputed opacity-reduced (dimmed / unmatched) palette. -/
inductive PaletteKind where
  | matched
  | dimmed
deriving DecidableEq, Repr

/-- Method `getFilterColorFunction(flags)` applied to a transaction, with the
component's `filterMode` passed explicitly (the closure reads it from `this`):
matched iff `(mode === 'and' && (tx.bigintFlags & flags) === flags) ||
(mode === 'or' && (flags === 0n || (tx.bigintFlags & flags) > 0n))`. -/
def getFilterColorFunction (mode : FilterMode) (flags : ℕ) (tx : TxView) : PaletteKind :=
  if (mode = FilterMode.and ∧ tx.bigintFlags &&& flags = flags)
      ∨ (mode = FilterMode.or ∧ (flags = 0 ∨ 0 < tx.bigintFlags &&& flags)) then
    PaletteKind.matched
  else
    PaletteKind.dimmed

/-- Method `getColorFunction()`: static `filterFlags` first (if truthy), then
`activeFilterFlags` (if truthy), then the nullable `overrideColors`. -/
def getColorFunction (s : CompState) : Option ColorFnVal :=
  if bigintTruthy s.filterFlags then some (ColorFnVal.filtered (s.filterFlags.getD 0))
  else if bigintTruthy s.activeFilterFlags then
    some (ColorFnVal.filtered (s.activeFilterFlags.getD 0))
  else if s.overrideColors then some ColorFnVal.external
  else none

/-- The color function the scene effectively draws with. -/
inductive EffectiveColorFn where
  | filteredColors (flags : ℕ)
  | externalColors
  | defaultColors
deriving DecidableEq, Repr

/-- Modelled from the spec: the `BlockScene` collaborator (`block-scene.ts`,
not among the analysed sources) falls back to the default (undimmed) color
function when the color function it was given is absent (`null`). -/
def resolveColorFn : Option ColorFnVal → EffectiveColorFn
  | none => EffectiveColorFn.defaultColors
  | some (ColorFnVal.filtered f) => EffectiveColorFn.filteredColors f
  | some ColorFnVal.external => EffectiveColorFn.externalColors

/-- Method `setFilterFlags(goggle?)`.  The external `toFlags` conversion (from
`filters.utils`, not among the analysed sources) is modelled by passing the
already-converted mask inside the optional `goggle` argument. -/
def setFilterFlags (s : CompState) (goggle : Option (FilterMode × ℕ)) : CompState :=
  let mode := match goggle with
    | some g => g.1
    | none => s.filterMode
  let aff : Option ℕ := match goggle with
    | some g => some g.2
    | none => s.filterFlags
  let s1 := { s with filterMode := mode, activeFilterFlags := aff }
  let s2 := match s1.scene with
    | some sc =>
      if s1.activeFilterFlags ≠ none ∧ s1.filtersAvailable = true then
        let fn := some (ColorFnVal.filtered (s1.activeFilterFlags.getD 0))
        { s1 with scene := some (sc.setColorFunction fn) }
      else
        let fn := if s1.overrideColors then some ColorFnVal.external else none
        { s1 with scene := some (sc.setColorFunction fn) }
    | none => s1
  start s2

/-! ## Interaction layer -/

/-- Method `setPreviewTx(cssX, cssY, clicked)`.  `dpr` is `window.devicePixelRatio`;
the hit test delegates to `scene.getTxAt` at device-pixel coordinates.
Returned alongside the new state is the list of `txHoverEvent` emissions. -/
def setPreviewTx (dpr : ℚ) (s : CompState) (cssX cssY : ℚ) (clicked : Bool) :
    CompState × List Event :=
  match s.scene with
  | none => (s, [])
  | some sc =>
    if s.selectedTx = none ∨ clicked = true then
      let s1 := { s with tooltipPosition := (cssX, cssY) }
      let selected := sc.getTxAt (cssX * dpr, cssY * dpr)
      let currentPreview := jsOr s1.selectedTx s1.hoverTx
      if selected ≠ currentPreview then
        let s2 := match currentPreview with
          | some cp => start { s1 with scene := some (sc.setHover cp false) }
          | none => s1
        let sc2 := match currentPreview with
          | some cp => sc.setHover cp false
          | none => sc
        match selected with
        | some sel =>
          let s3 := start { s2 with scene := some (sc2.setHover sel true) }
          if clicked then ({ s3 with selectedTx := some sel }, [])
          else ({ s3 with hoverTx := some sel }, [Event.txHover (some sel.txid)])
        | none =>
          let s3 := if clicked then { s2 with selectedTx := none } else s2
          ({ s3 with hoverTx := none }, [Event.txHover none])
      else if clicked then
        if selected = s1.selectedTx then
          ({ s1 with hoverTx := s1.selectedTx, selectedTx := none },
            [Event.txHover (s1.selectedTx.map (fun t => t.txid))])
        else ({ s1 with selectedTx := selected }, [])
      else (s1, [])
    else (s, [])

/-- Handler `onPointerLeave(event)`: for non-touch pointers, a clicked hit test at the
off-canvas CSS coordinate `(-1, -1)`; touch pointer-leave does nothing. -/
def onPointerLeave (dpr : ℚ) (s : CompState) (pointerType : String) :
    CompState × List Event :=
  if pointerType ≠ "touch" then setPreviewTx dpr s (-1) (-1) true
  else (s, [])

/-- Method `onTxClick(cssX, cssY, keyModifier)`: hit-test and emit `txClickEvent`
when the hit transaction has a truthy (non-empty) txid. -/
def onTxClick (dpr : ℚ) (s : CompState) (cssX cssY : ℚ) (keyModifier : Bool) :
    CompState × List Event :=
  match s.scene with
  | none => (s, [])
  | some sc =>
    match sc.getTxAt (cssX * dpr, cssY * dpr) with
    | some sel => if sel.txid ≠ "" then (s, [Event.txClick sel keyModifier]) else (s, [])
    | none => (s, [])

/-- The fields of the `pointerup` event that `onClick` reads. -/
structure PointerEventData where
  targetIsCanvas : Bool
  pointerType : String
  offsetX : ℚ
  offsetY : ℚ
  shiftKey : Bool
  ctrlKey : Bool
  metaKey : Bool
  which : ℕ
  button : ℕ

/-- The `pointerup` handler `onClick(event)`: touch taps on the canvas go
through `setPreviewTx` (selection); other pointer-ups on the canvas go through
`onTxClick` with the modifier-key / middle-click flag. -/
def onClick (dpr : ℚ) (s : CompState) (e : PointerEventData) : CompState × List Event :=
  if s.canvas = false then (s, [])
  else if e.targetIsCanvas = true ∧ e.pointerType = "touch" then
    setPreviewTx dpr s e.offsetX e.offsetY true
  else if e.targetIsCanvas = true then
    let keyMod := e.shiftKey || e.ctrlKey || e.metaKey
    let middleClick := e.which == 2 || e.button == 1
    onTxClick dpr s e.offsetX e.offsetY (keyMod || middleClick)
  else (s, [])

/-- A JavaScript runtime fault (here: reading a property of `undefined`). -/
inductive JsFault where
  | typeError
deriving DecidableEq, Repr

/-- Method `setMirror(txid)`.  The source reads `this.scene.setHover` /
`this.scene.txs` without a scene existence guard, so the embedding returns
`Except`: dereferencing the absent scene is a `typeError`. -/
def setMirror (s : CompState) (txid : Option String) : Except JsFault CompState :=
  let step1 : Except JsFault CompState :=
    match s.mirrorTx with
    | some m =>
      match s.scene with
      | none => Except.error JsFault.typeError
      | some sc => Except.ok (start { s with scene := some (sc.setHover m false) })
    | none => Except.ok s
  match step1 with
  | Except.error e => Except.error e
  | Except.ok s1 =>
    if strTruthy txid then
      match s1.scene with
      | none => Except.error JsFault.typeError
      | some sc =>
        match txid with
        | some t =>
          match lookupTx sc.txs t with
          | some tx =>
            Except.ok (start { s1 with mirrorTx := some tx, scene := some (sc.setHover tx true) })
          | none => Except.ok s1
        | none => Except.ok s1
    else Except.ok s1

/-- Method `updateSearchHighlight()`: if the current highlight's txid no longer equals
the search text (and a scene exists), unset its highlight; otherwise, if the
search text is a 64-character identifier, look it up in the scene index, store
the result in `highlightTx`, and set its highlight when found. -/
def updateSearchHighlight (s : CompState) : CompState :=
  if (match s.highlightTx, s.scene with
      | some h, some _ => decide (h.txid ≠ s.searchText)
      | _, _ => false) = true then
    match s.highlightTx, s.scene with
    | some h, some sc => start { s with scene := some (sc.setHighlight h false) }
    | _, _ => s
  else if s.scene.isSome = true ∧ s.searchText ≠ "" ∧ s.searchText.length = 64 then
    match s.scene with
    | some sc =>
      match lookupTx sc.txs s.searchText with
      | some h => start { s with highlightTx := some h, scene := some (sc.setHighlight h true) }
      | none => { s with highlightTx := none }
    | none => s
  else s

/-- Method `setup(transactions)`: recompute the availability of filters, refresh the
color function through `setFilterFlags` when availability changed (note the
source performs this call *before* writing the new `filtersAvailable`), then
rebuild the scene topology, arm the ready event and restart. -/
def setup (s : CompState) (txs : List TransactionStripped) : CompState :=
  let fa := txs.foldl (fun flagSet tx => flagSet || decide (0 < tx.flags)) false
  let s1 := if fa ≠ s.filtersAvailable then setFilterFlags s none else s
  let s2 := { s1 with filtersAvailable := fa }
  match s2.scene with
  | some sc =>
    let s3 := start { s2 with scene := some (sc.setup txs), readyNextFrame := true }
    updateSearchHighlight s3
  | none => s2

/-! ## Concrete fixtures used by witnesses and counterexamples -/

/-- An empty scene with no transaction under any point. -/
def baseScene : Scene where
  txs := []
  hover := []
  highlight := []
  animateUntil := 0
  colorFunction := none
  getTxAt := fun _ => none

def txA : TxView := ⟨"aa", 1⟩

/-- A scene whose hit test always returns `txA`. -/
def sceneHitA : Scene := { baseScene with txs := [txA], getTxAt := fun _ => some txA }

/-- A constructed component with a scene that hits `txA` everywhere, nothing
hovered or selected. -/
def stateIdle : CompState := { baseState with scene := some sceneHitA }

/-- A scene containing `txA` whose hit test misses everywhere. -/
def sceneMiss : Scene := { baseScene with txs := [txA] }

/-- A component with `txA` explicitly selected, over a scene whose hit test
misses everywhere. -/
def stateSelected : CompState := { baseState with scene := some sceneMiss, selectedTx := some txA }

/-- A component with filters available, a static filter mask `1`, the matching
dynamic mask, and an override color function supplied. -/
def stateFiltersOn : CompState :=
  { baseState with
    scene := some baseScene
    filterFlags := some 1
    activeFilterFlags := some 1
    overrideColors := true }

/-! ## C2: filter color function -/

/-- C2: `getFilterColorFunction(F)` colors a transaction with the default
(matched) palette exactly when, in `and` mode, `(tx.bigintFlags & F) === F`,
and, in `or` mode, `F === 0` or `(tx.bigintFlags & F) > 0`; every other case
gets the dimmed palette, and `F = 0` matches every transaction in both modes. -/
theorem C2_filter_match (mode : FilterMode) (F : ℕ) (tx : TxView) :
    (getFilterColorFunction mode F tx = PaletteKind.matched ↔
      ((mode = FilterMode.and ∧ tx.bigintFlags &&& F = F) ∨
       (mode = FilterMode.or ∧ (F = 0 ∨ 0 < tx.bigintFlags &&& F)))) ∧
    (getFilterColorFunction mode F tx ≠ PaletteKind.matched →
      getFilterColorFunction mode F tx = PaletteKind.dimmed) ∧
    getFilterColorFunction mode 0 tx = PaletteKind.matched := by
  refine ⟨?_, ?_, ?_⟩
  · rw [getFilterColorFunction]
    split_ifs with h
    · simp [h]
    · simp [h]
  · rw [getFilterColorFunction]
    split_ifs with h <;> simp
  · rw [getFilterColorFunction]
    cases mode <;> simp

/-- Witness for C2's conditional conjunct at concrete inputs: a dimmed result
is indeed reported as dimmed (`and` mode, flags `2` against tx flags `1`). -/
theorem C2_filter_match_witness :
    getFilterColorFunction FilterMode.and 2 txA = PaletteKind.dimmed := by
  have h := (C2_filter_match FilterMode.and 2 txA).2.1
  exact h (by decide)

/-! ## C6: color-function resolution order (`getColorFunction`) -/

/-- C6: with no filter gesture active, `getColorFunction` prefers the static
`filterFlags` mask (when truthy), then the dynamic `activeFilterFlags` mask
(when truthy), then the external override color function, and finally — via
the scene's fallback — the default undimmed color function. -/
theorem C6_color_resolution (s : CompState) :
    (∀ n, s.filterFlags = some n → n ≠ 0 →
      getColorFunction s = some (ColorFnVal.filtered n)) ∧
    (bigintTruthy s.filterFlags = false →
      ∀ n, s.activeFilterFlags = some n → n ≠ 0 →
        getColorFunction s = some (ColorFnVal.filtered n)) ∧
    (bigintTruthy s.filterFlags = false → bigintTruthy s.activeFilterFlags = false →
      s.overrideColors = true → getColorFunction s = some ColorFnVal.external) ∧
    (bigintTruthy s.filterFlags = false → bigintTruthy s.activeFilterFlags = false →
      s.overrideColors = false →
      resolveColorFn (getColorFunction s) = EffectiveColorFn.defaultColors) := by
  refine ⟨?_, ?_, ?_, ?_⟩
  · intro n hn hn0
    simp only [getColorFunction, hn]
    simp [bigintTruthy, hn0]
  · intro hff n hn hn0
    simp only [getColorFunction, hff, hn]
    simp [bigintTruthy, hn0]
  · intro hff haf hov
    simp only [getColorFunction, hff, haf, hov]
    simp
  · intro hff haf hov
    simp only [getColorFunction, hff, haf, hov]
    simp [resolveColorFn]

/-- Witness for C6 across all four resolution levels at concrete states. -/
theorem C6_color_resolution_witness :
    getColorFunction { baseState with filterFlags := some 2, activeFilterFlags := some 1 } =
      some (ColorFnVal.filtered 2) ∧
    getColorFunction { baseState with activeFilterFlags := some 1 } =
      some (ColorFnVal.filtered 1) ∧
    getColorFunction { baseState with overrideColors := true } = some ColorFnVal.external ∧
    resolveColorFn (getColorFunction baseState) = EffectiveColorFn.defaultColors := by
  refine ⟨?_, ?_, ?_, ?_⟩
  · exact (C6_color_resolution _).1 2 rfl (by decide)
  · exact (C6_color_resolution _).2.1 (by decide) 1 rfl (by decide)
  · exact (C6_color_resolution _).2.2.1 (by decide) (by decide) rfl
  · exact (C6_color_resolution _).2.2.2 (by decide) (by decide) rfl

/-! ## C9: frame-scheduler continuation rule -/

lemma runDraw_proj (s : CompState) :
    (runDraw s).1.running = s.running ∧
    (runDraw s).1.scene = s.scene ∧
    (runDraw s).1.nextTimerId = s.nextTimerId ∧
    (runDraw s).1.animationFrameRequest = s.animationFrameRequest ∧
    (runDraw s).1.animationHeartBeat = s.animationHeartBeat := by
  rw [runDraw]
  split_ifs <;> simp

/-- C9: a tick `run(now)` schedules the next animation-frame tick exactly when
`running` is true, a scene exists and `now <= scene.animateUntil + 500`
(a fresh frame handle is taken and the heartbeat is untouched); otherwise no
new frame is requested and a single fixed-delay heartbeat timer is scheduled,
replacing any pending one; the heartbeat's callback is `start()`, which sets
`running` and requests a frame, restarting the tight loop. -/
theorem C9_scheduler_continuation (s : CompState) (now : ℚ) (t : CompState) :
    ((s.running = true ∧ ∃ sc, s.scene = some sc ∧ now ≤ sc.animateUntil + 500) →
      (run s now).1.animationFrameRequest = some s.nextTimerId ∧
      (run s now).1.animationHeartBeat = s.animationHeartBeat) ∧
    (¬(s.running = true ∧ ∃ sc, s.scene = some sc ∧ now ≤ sc.animateUntil + 500) →
      (run s now).1.animationFrameRequest = s.animationFrameRequest ∧
      (run s now).1.animationHeartBeat = some s.nextTimerId) ∧
    ((heartbeatFire t).running = true ∧
      (heartbeatFire t).animationFrameRequest = some t.nextTimerId) := by
  obtain ⟨hrun, hsc, hnid, hafr, hhb⟩ := runDraw_proj s
  refine ⟨?_, ?_, ?_⟩
  · rintro ⟨hr, sc, hscene, hle⟩
    have hcond : ((runDraw s).1.running = true ∧
        (match (runDraw s).1.scene with
         | some sc => decide (now ≤ sc.animateUntil + 500)
         | none => false) = true) := by
      refine ⟨by rw [hrun]; exact hr, ?_⟩
      rw [hsc, hscene]
      simpa using hle
    rw [run]
    simp only [hcond, and_self, if_true]
    simp [doRun, hnid, hhb]
  · intro hnc
    have hcond : ¬((runDraw s).1.running = true ∧
        (match (runDraw s).1.scene with
         | some sc => decide (now ≤ sc.animateUntil + 500)
         | none => false) = true) := by
      intro ⟨h1, h2⟩
      apply hnc
      refine ⟨by rw [← hrun]; exact h1, ?_⟩
      rw [hsc] at h2
      match hs : s.scene with
      | some sc =>
        rw [hs] at h2
        exact ⟨sc, rfl, by simpa using h2⟩
      | none => rw [hs] at h2; simp at h2
    rw [run]
    simp only [if_neg hcond]
    simp [hnid, hafr]
  · constructor <;> simp [heartbeatFire, start, doRun]

/-- Witness for C9 on concrete states: a running component with a live scene
at `now = 0` schedules the next frame; a stopped one schedules the heartbeat;
firing the heartbeat restarts the loop. -/
theorem C9_scheduler_continuation_witness :
    (run { baseState with running := true, scene := some baseScene } 0).1.animationFrameRequest =
      some 0 ∧
    (run baseState 0).1.animationHeartBeat = some 0 ∧
    (heartbeatFire baseState).running = true := by
  refine ⟨?_, ?_, ?_⟩
  · exact ((C9_scheduler_continuation
      { baseState with running := true, scene := some baseScene } 0 baseState).1
      ⟨rfl, baseScene, rfl, by norm_num [baseScene]⟩).1
  · exact ((C9_scheduler_continuation baseState 0 baseState).2.1
      (by rintro ⟨h, _⟩; simp [baseState] at h)).2
  · exact (C9_scheduler_continuation baseState 0 baseState).2.2.1

/-! ## C3: toggle-select law (`setPreviewTx` with `clicked = true`) -/

/-- A clicked hit test that misses clears both the selection and the hover. -/
lemma setPreviewTx_click_miss (dpr cssX cssY : ℚ) (s : CompState) (sc : Scene)
    (hsc : s.scene = some sc) (hmiss : sc.getTxAt (cssX * dpr, cssY * dpr) = none) :
    (setPreviewTx dpr s cssX cssY true).1.selectedTx = none ∧
    (setPreviewTx dpr s cssX cssY true).1.hoverTx = none := by
  rcases hsel : s.selectedTx with _ | X
  · rcases hh : s.hoverTx with _ | W
    · simp [setPreviewTx, hsc, hmiss, hsel, hh, jsOr, start, doRun]
    · simp [setPreviewTx, hsc, hmiss, hsel, hh, jsOr, start, doRun]
  · simp [setPreviewTx, hsc, hmiss, hsel, jsOr, start, doRun]

/-- C3: with a scene present, a commit (clicked hit test): selects the hit
transaction when nothing was selected; demotes an already-selected
transaction back to hover when hit again; switches directly to a different
hit transaction; and clears the selection when it hits nothing. -/
theorem C3_toggle_select (dpr cssX cssY : ℚ) (s : CompState) (sc : Scene) (X : TxView)
    (hsc : s.scene = some sc) :
    (s.selectedTx = none → sc.getTxAt (cssX * dpr, cssY * dpr) = some X →
      (setPreviewTx dpr s cssX cssY true).1.selectedTx = some X) ∧
    (s.selectedTx = some X → sc.getTxAt (cssX * dpr, cssY * dpr) = some X →
      (setPreviewTx dpr s cssX cssY true).1.selectedTx = none ∧
      (setPreviewTx dpr s cssX cssY true).1.hoverTx = some X) ∧
    (∀ Y, s.selectedTx = some X → sc.getTxAt (cssX * dpr, cssY * dpr) = some Y → Y ≠ X →
      (setPreviewTx dpr s cssX cssY true).1.selectedTx = some Y) ∧
    (sc.getTxAt (cssX * dpr, cssY * dpr) = none →
      (setPreviewTx dpr s cssX cssY true).1.selectedTx = none ∧
      (setPreviewTx dpr s cssX cssY true).1.hoverTx = none) := by
  refine ⟨?_, ?_, ?_, ?_⟩
  · intro hsel hhit
    rcases hh : s.hoverTx with _ | W
    · simp [setPreviewTx, hsc, hsel, hhit, hh, jsOr, start, doRun]
    · by_cases hXW : X = W
      · subst hXW
        simp [setPreviewTx, hsc, hsel, hhit, hh, jsOr, start, doRun]
      · simp [setPreviewTx, hsc, hsel, hhit, hh, jsOr, hXW, start, doRun]
  · intro hsel hhit
    simp [setPreviewTx, hsc, hsel, hhit, jsOr, start, doRun]
  · intro Y hsel hhit hYX
    simp [setPreviewTx, hsc, hsel, hhit, jsOr, hYX, start, doRun]
  · intro hmiss
    exact setPreviewTx_click_miss dpr cssX cssY s sc hsc hmiss

/-- Witness for C3: on a concrete idle component whose scene hits `txA`,
a click selects `txA`; on a component with `txA` selected over the same
scene, a second click demotes it to hover. -/
theorem C3_toggle_select_witness :
    (setPreviewTx 1 stateIdle 5 5 true).1.selectedTx = some txA ∧
    (setPreviewTx 1 { stateIdle with selectedTx := some txA } 5 5 true).1.selectedTx = none ∧
    (setPreviewTx 1 { stateIdle with selectedTx := some txA } 5 5 true).1.hoverTx = some txA := by
  refine ⟨?_, ?_, ?_⟩
  · exact (C3_toggle_select 1 5 5 stateIdle sceneHitA txA rfl).1 rfl rfl
  · exact ((C3_toggle_select 1 5 5 { stateIdle with selectedTx := some txA }
      sceneHitA txA rfl).2.1 rfl rfl).1
  · exact ((C3_toggle_select 1 5 5 { stateIdle with selectedTx := some txA }
      sceneHitA txA rfl).2.1 rfl rfl).2

/-! ## C4: pointer-leave versus explicit selection

The claim says a non-touch pointer-leave never clears an explicit selection.
The handler, however, performs `setPreviewTx(-1, -1, true)` — a *clicked* hit
test — so a miss at the off-canvas coordinate takes the `clicked` branch and
assigns `this.selectedTx = null`. -/

/-- C4 counterexample: a component with `txA` explicitly selected, whose scene
hit test returns nothing at the off-canvas point, loses its selection on a
non-touch pointer-leave (the claim says `selectedTx` stays `some txA`). -/
theorem C4_counterexample :
    stateSelected.selectedTx = some txA ∧
    (onPointerLeave 1 stateSelected "mouse").1.selectedTx = none := by
  constructor
  · rfl
  · have h := setPreviewTx_click_miss 1 (-1) (-1) stateSelected sceneMiss rfl rfl
    rw [onPointerLeave, if_pos (by decide)]
    exact h.1

/-- C4 (amended): a non-touch pointer-leave performs a clicked hit test at the
off-canvas coordinate; when that hit test returns no transaction it clears
*both* the hover and the explicit selection; a touch pointer-leave changes
nothing and emits nothing. -/
theorem C4_pointer_leave (dpr : ℚ) (s : CompState) (sc : Scene) (pt : String)
    (hsc : s.scene = some sc) (hmiss : sc.getTxAt (-1 * dpr, -1 * dpr) = none) :
    (pt ≠ "touch" →
      (onPointerLeave dpr s pt).1.selectedTx = none ∧
      (onPointerLeave dpr s pt).1.hoverTx = none) ∧
    (pt = "touch" → onPointerLeave dpr s pt = (s, [])) := by
  constructor
  · intro hpt
    rw [onPointerLeave, if_pos hpt]
    exact setPreviewTx_click_miss dpr (-1) (-1) s sc hsc hmiss
  · intro hpt
    rw [onPointerLeave, hpt]
    simp

/-- Witness for C4 (amended) at the concrete selected state: a mouse
pointer-leave clears the selection, a touch pointer-leave is a no-op. -/
theorem C4_pointer_leave_witness :
    (onPointerLeave 1 stateSelected "mouse").1.hoverTx = none ∧
    onPointerLeave 1 stateSelected "touch" = (stateSelected, []) := by
  constructor
  · exact ((C4_pointer_leave 1 stateSelected sceneMiss "mouse" rfl rfl).1 (by decide)).2
  · exact (C4_pointer_leave 1 stateSelected sceneMiss "touch" rfl rfl).2 rfl

/-! ## C5: `setup`, `filtersAvailable` and the installed color function

The source computes the new availability, calls `setFilterFlags()` when it
*differs* from the stored `this.filtersAvailable`, and only afterwards writes
the new value — so `setFilterFlags` decides between the filter color function
and the override using the availability value from *before* the `setup`. -/

lemma foldl_or_any (l : List TransactionStripped) (b : Bool) :
    l.foldl (fun flagSet tx => flagSet || decide (0 < tx.flags)) b
      = (b || l.any (fun t => decide (0 < t.flags))) := by
  induction l generalizing b with
  | nil => simp
  | cons t l ih => simp [ih, Bool.or_assoc]

lemma updateSearchHighlight_filtersAvailable (s : CompState) :
    (updateSearchHighlight s).filtersAvailable = s.filtersAvailable := by
  rw [updateSearchHighlight]
  repeat' split
  all_goals simp [start, doRun]

lemma updateSearchHighlight_colorFn (s : CompState) :
    ((updateSearchHighlight s).scene.map (fun sc => sc.colorFunction)) =
      (s.scene.map (fun sc => sc.colorFunction)) := by
  rw [updateSearchHighlight]
  repeat' split
  all_goals simp_all [start, doRun, Scene.setHighlight]

lemma setup_filtersAvailable (s : CompState) (txs : List TransactionStripped) :
    (setup s txs).filtersAvailable = txs.any (fun t => decide (0 < t.flags)) := by
  simp only [setup]
  split
  · rw [updateSearchHighlight_filtersAvailable]
    simp [start, doRun, foldl_or_any]
  · simp [foldl_or_any]

lemma setFilterFlags_none_scene (s : CompState) (sc : Scene)
    (hsc : s.scene = some sc) (hff : s.filterFlags = none) :
    (setFilterFlags s none).scene =
      some (sc.setColorFunction
        (if s.overrideColors = true then some ColorFnVal.external else none)) := by
  simp only [setFilterFlags, hsc, hff]
  simp [start, doRun]

/-- C5 counterexample: a component with filters previously available, a static
filter mask `1` installed and an override color function supplied.  After
`setup([])`, `filtersAvailable` is `false`, yet the scene's installed color
function is the *filter-derived* one, not the override — because `setup`
refreshes the color function before writing the new `filtersAvailable`. -/
theorem C5_counterexample :
    stateFiltersOn.filtersAvailable = true ∧
    (setup stateFiltersOn []).filtersAvailable = false ∧
    ((setup stateFiltersOn []).scene.map (fun sc2 => sc2.colorFunction)) =
      some (some (ColorFnVal.filtered 1)) := by
  refine ⟨rfl, rfl, rfl⟩

/-- C5 (amended): after `setup(txs)`, `filtersAvailable` equals "some
transaction in `txs` has `flags > 0`"; and after `setup` on a flagless list
the override color function is installed *provided* no static filter mask was
set — when one is set and filters were previously available, the
filter-derived function stays installed (see `C5_counterexample`). -/
theorem C5_setup_filters (s : CompState) (sc : Scene) (txs : List TransactionStripped)
    (hsc : s.scene = some sc) :
    ((setup s txs).filtersAvailable = true ↔ ∃ t ∈ txs, 0 < t.flags) ∧
    (s.filtersAvailable = true → txs.any (fun t => decide (0 < t.flags)) = false →
      s.filterFlags = none →
      ((setup s txs).scene.map (fun sc2 => sc2.colorFunction)) =
        some (if s.overrideColors = true then some ColorFnVal.external else none)) := by
  constructor
  · rw [setup_filtersAvailable]
    simp [List.any_eq_true]
  · intro hfa hany hffnone
    have hs1 := setFilterFlags_none_scene s sc hsc hffnone
    simp only [setup, foldl_or_any, Bool.false_or, hany, hfa]
    simp only [ne_eq, Bool.false_eq_true, not_false_eq_true, if_true]
    split
    · rename_i sc2 heq
      rw [updateSearchHighlight_colorFn]
      simp only [start, doRun]
      simp only [hs1, Option.some.injEq] at heq
      simp [← heq, Scene.setup, Scene.setColorFunction]
    · rename_i heq
      rw [hs1] at heq
      cases heq

/-- Witness for C5 (amended): with no static mask and an override supplied,
`setup` on a flagless list installs the override; and `setup` on a flagged
list makes filters available. -/
theorem C5_setup_filters_witness :
    ((setup { baseState with scene := some baseScene, overrideColors := true }
        [⟨"aa", 0⟩]).scene.map (fun sc2 => sc2.colorFunction)) =
      some (some ColorFnVal.external) ∧
    (setup stateIdle [⟨"bb", 3⟩]).filtersAvailable = true := by
  constructor
  · have h := (C5_setup_filters
      { baseState with scene := some baseScene, overrideColors := true }
      baseScene [⟨"aa", 0⟩] rfl).2 rfl (by decide) rfl
    simpa using h
  · exact (C5_setup_filters stateIdle sceneHitA [⟨"bb", 3⟩] rfl).1.mpr
      ⟨⟨"bb", 3⟩, by simp, by norm_num⟩

/-! ## C7: search highlight (`updateSearchHighlight`)

The unset transition and the set transition live in an `if` / `else if`
pair, so in a single invocation at most one of them runs: when the current
highlight's id differs from the search text, the old highlight is unset but
the new match is *not* set (and `highlightTx` still points at the old one). -/

/-- A well-formed 64-character transaction identifier. -/
def txid64 : String :=
  "bbbbbbbbbbbbbbbbbbbbbbbbbbbbbbbbbbbbbbbbbbbbbbbbbbbbbbbbbbbbbbbb"

def txB : TxView := ⟨txid64, 0⟩

/-- A scene containing exactly the transaction with the 64-character id. -/
def sceneSearch : Scene := { baseScene with txs := [txB] }

/-- A component whose search text is the 64-character id of `txB` (present in
the scene) while `txA` (a different id) is still highlighted. -/
def stateSearch : CompState :=
  { baseState with
    scene := some sceneSearch
    highlightTx := some txA
    searchText := txid64 }

/-- C7 counterexample: search text is a well-formed 64-character id present in
the scene's index, but because an old highlight with a different id is being
unset in the same invocation, the matching transaction does *not* become
`highlightTx` and its highlight is *not* set (the claim says both happen). -/
theorem C7_counterexample :
    stateSearch.searchText.length = 64 ∧
    lookupTx sceneSearch.txs stateSearch.searchText = some txB ∧
    (updateSearchHighlight stateSearch).highlightTx = some txA ∧
    ((updateSearchHighlight stateSearch).scene.map (fun sc => sc.highlight)) = some [] := by
  refine ⟨by decide, by decide, rfl, rfl⟩

/-- C7 (amended): per invocation the two transitions are mutually exclusive.
If the current highlight's id differs from the search text, its highlight is
unset (while `highlightTx` keeps pointing at it) and a redraw is requested;
otherwise, if the search text is a non-empty 64-character id found in the
scene's index, that transaction becomes `highlightTx`, its highlight is set,
and a redraw is requested. -/
theorem C7_search_highlight (s : CompState) (sc : Scene) (hsc : s.scene = some sc) :
    (∀ h, s.highlightTx = some h → h.txid ≠ s.searchText →
      (updateSearchHighlight s).scene = some (sc.setHighlight h false) ∧
      (updateSearchHighlight s).highlightTx = some h ∧
      (updateSearchHighlight s).running = true ∧
      (updateSearchHighlight s).animationFrameRequest = some s.nextTimerId) ∧
    ((∀ h, s.highlightTx = some h → h.txid = s.searchText) →
      s.searchText ≠ "" → s.searchText.length = 64 →
      ∀ t, lookupTx sc.txs s.searchText = some t →
        (updateSearchHighlight s).highlightTx = some t ∧
        (updateSearchHighlight s).scene = some (sc.setHighlight t true) ∧
        (updateSearchHighlight s).running = true ∧
        (updateSearchHighlight s).animationFrameRequest = some s.nextTimerId) := by
  constructor
  · intro h hh hne
    simp [updateSearchHighlight, hsc, hh, hne, start, doRun]
  · intro hmatch hne h64 t ht
    have hcond : (match s.highlightTx, s.scene with
        | some h, some _ => decide (h.txid ≠ s.searchText)
        | _, _ => false) = false := by
      rcases hh : s.highlightTx with _ | h
      · rw [hsc]
      · rw [hsc]
        simpa using hmatch h hh
    rw [updateSearchHighlight, hcond]
    simp [hsc, hne, h64, ht, start, doRun]

/-- Witness for C7 (amended): on `stateSearch`, the differing old highlight is
unset while `highlightTx` still points at it; with no old highlight, the
64-character search text found in the index becomes the highlight. -/
theorem C7_search_highlight_witness :
    (updateSearchHighlight stateSearch).scene = some (sceneSearch.setHighlight txA false) ∧
    (updateSearchHighlight { stateSearch with highlightTx := none }).highlightTx = some txB := by
  constructor
  · exact ((C7_search_highlight stateSearch sceneSearch rfl).1 txA rfl (by decide)).1
  · exact ((C7_search_highlight { stateSearch with highlightTx := none } sceneSearch rfl).2
      (fun h hx => Option.noConfusion hx) (by decide) (by decide) txB (by decide)).1

/-! ## C8: totality of `setMirror`

The source body reads `this.scene.txs[txid]` (and, when a previous mirror
exists, calls `this.scene.setHover`) without the `if (this.scene)` guard every
other mutating operation has, so calling `setMirror` with a truthy id before
the scene is constructed dereferences `undefined` and faults. -/

/-- C8: evaluating `setMirror` at the failing input — a freshly constructed
component (no scene yet, no previous mirror) and a non-empty id — produces a
`TypeError` instead of the silent no-op the claim requires; with a scene
present, a lookup miss is indeed a silent no-op, and switching mirror targets
unsets the previous mirror transaction's highlight before setting the new
one's. -/
theorem C8_setMirror_fault :
    setMirror baseState (some "a") = Except.error JsFault.typeError ∧
    setMirror { baseState with scene := some baseScene } (some "a") =
      Except.ok { baseState with scene := some baseScene } ∧
    ((setMirror { baseState with scene := some sceneSearch, mirrorTx := some txA }
        (some txid64)).toOption.map
      (fun s1 => (s1.mirrorTx, s1.scene.map (fun sc => sc.hover)))) =
      some (some txB, some [txid64]) := by
  refine ⟨rfl, rfl, rfl⟩

/-! ## C10: touch versus non-touch `pointerup` (`onClick` / `onTxClick`) -/

/-- Helper fact: `setPreviewTx` only ever emits hover notifications. -/
lemma setPreviewTx_events_hover (dpr : ℚ) (s : CompState) (x y : ℚ) (c : Bool) :
    ∀ ev ∈ (setPreviewTx dpr s x y c).2, ∃ o, ev = Event.txHover o := by
  intro ev hev
  rcases hsc : s.scene with _ | sc
  · simp only [setPreviewTx, hsc] at hev
    exact absurd hev (List.not_mem_nil ev)
  · simp only [setPreviewTx, hsc] at hev
    rcases hhit : sc.getTxAt (x * dpr, y * dpr) with _ | sel
    all_goals rw [hhit] at hev
    all_goals repeat' split at hev
    all_goals simp only [List.mem_singleton, List.not_mem_nil] at hev
    all_goals first
      | exact hev.elim
      | exact ⟨_, hev⟩

/-- C10: a `pointerup` on the canvas with `pointerType === 'touch'` is handled
entirely by `setPreviewTx` (selection) and can only emit hover notifications,
never `txClickEvent`; and any `txClickEvent` emission comes from a non-touch
`pointerup` on the canvas whose hit test returned a transaction with a
non-empty txid, carrying the modifier-key / middle-click flag. -/
theorem C10_click_touch_separation (dpr : ℚ) (s : CompState) (e : PointerEventData)
    (hc : s.canvas = true) :
    (e.targetIsCanvas = true → e.pointerType = "touch" →
      onClick dpr s e = setPreviewTx dpr s e.offsetX e.offsetY true ∧
      ∀ ev ∈ (onClick dpr s e).2, ∃ o, ev = Event.txHover o) ∧
    (∀ tx kM, Event.txClick tx kM ∈ (onClick dpr s e).2 →
      e.pointerType ≠ "touch" ∧ e.targetIsCanvas = true ∧
      (∃ sc, s.scene = some sc ∧ sc.getTxAt (e.offsetX * dpr, e.offsetY * dpr) = some tx) ∧
      tx.txid ≠ "" ∧
      kM = ((e.shiftKey || e.ctrlKey || e.metaKey) || (e.which == 2 || e.button == 1))) := by
  constructor
  · intro htgt htouch
    have heq : onClick dpr s e = setPreviewTx dpr s e.offsetX e.offsetY true := by
      rw [onClick]
      simp [hc, htgt, htouch]
    refine ⟨heq, ?_⟩
    rw [heq]
    exact setPreviewTx_events_hover dpr s e.offsetX e.offsetY true
  · intro tx kM hmem
    rw [onClick] at hmem
    rw [if_neg (by simp [hc])] at hmem
    by_cases h1 : e.targetIsCanvas = true ∧ e.pointerType = "touch"
    · rw [if_pos h1] at hmem
      obtain ⟨o, ho⟩ := setPreviewTx_events_hover dpr s e.offsetX e.offsetY true _ hmem
      cases ho
    · rw [if_neg h1] at hmem
      by_cases h2 : e.targetIsCanvas = true
      · rw [if_pos h2] at hmem
        have htouch : e.pointerType ≠ "touch" := fun hpt => h1 ⟨h2, hpt⟩
        refine ⟨htouch, h2, ?_⟩
        rcases hsc : s.scene with _ | sc
        · simp only [onTxClick, hsc] at hmem
          simp at hmem
        · simp only [onTxClick, hsc] at hmem
          rcases hhit : sc.getTxAt (e.offsetX * dpr, e.offsetY * dpr) with _ | sel
          · rw [hhit] at hmem
            simp at hmem
          · rw [hhit] at hmem
            repeat' split at hmem
            all_goals simp only [List.mem_singleton, List.not_mem_nil] at hmem
            rename_i hid
            injection hmem with h1 h2
            refine ⟨⟨sc, rfl, ?_⟩, ?_, ?_⟩
            · rw [hhit, h1]
              assumption
            · rw [h1]
              exact hid
            · exact h2
      · rw [if_neg h2] at hmem
        simp at hmem

/-- Witness for C10 at concrete events on `stateIdle` (whose scene hits `txA`
everywhere): a touch tap routes through `setPreviewTx`; a shift-click's
emitted `txClickEvent` implies a non-empty txid and the modifier flag. -/
theorem C10_click_touch_separation_witness :
    onClick 1 stateIdle ⟨true, "touch", 5, 5, false, false, false, 0, 0⟩ =
      setPreviewTx 1 stateIdle 5 5 true ∧
    txA.txid ≠ "" := by
  constructor
  · exact ((C10_click_touch_separation 1 stateIdle
      ⟨true, "touch", 5, 5, false, false, false, 0, 0⟩ rfl).1 rfl rfl).1
  · exact ((C10_click_touch_separation 1 stateIdle
      ⟨true, "mouse", 5, 5, true, false, false, 0, 0⟩ rfl).2 txA true (by decide)).2.2.2.1

end Mempool
